import Mathlib

/-!
Shallow embedding of the search-handler widget (src/app.ts and the compiled
variant src/unnamed/part_000).  Both files bind a click handler that reads a
text input, validates it, POSTs it to a local endpoint and renders the JSON
response into a result div.  `handlerA` embeds the Shape-A renderer of
src/app.ts; `handlerB` embeds the Shape-B renderer of src/unnamed/part_000.
-/

/-- A JSON response payload, read field-by-field the way the JS code reads
`data.<field>`: an absent field reads as `undefined` (`none` here).
`retailer_info`, when present, is a sequence of strings (Shape B). -/
structure Payload where
  brand_drug : Option String
  generic_info : Option String
  raw_info : Option String
  brand_info : Option String
  generic_summary : Option String
  retailer_info : Option (List String)
deriving DecidableEq, Repr

/-- JS string interpolation of a possibly-undefined field: `undefined`
interpolates as the literal text "undefined". -/
def jsStr : Option String → String
  | none => "undefined"
  | some s => s

/-- `searchInput.value.trim()`: strip whitespace from both ends of the
input value, as JS `String.prototype.trim` does. -/
def jsTrim (s : String) : String :=
  String.mk (((s.data.dropWhile Char.isWhitespace).reverse.dropWhile
    Char.isWhitespace).reverse)

/-- One outbound HTTP request as built by the `fetch` call. -/
structure Request where
  url : String
  method : String
  contentType : String
  body : String
deriving DecidableEq, Repr

/-- A hex digit character, as produced by JSON \uXXXX escapes. -/
def hexDigit (n : Nat) : Char :=
  if n < 10 then Char.ofNat (48 + n) else Char.ofNat (87 + n)

/-- Four-hex-digit rendering of a code point below 0x10000. -/
def hex4 (n : Nat) : String :=
  String.mk [hexDigit (n / 4096 % 16), hexDigit (n / 256 % 16),
             hexDigit (n / 16 % 16), hexDigit (n % 16)]

/-- JSON.stringify escaping of a single character inside a string literal. -/
def jsonEscapeChar (c : Char) : String :=
  if c = '"' then "\\\""
  else if c = '\\' then "\\\\"
  else if c = '\x08' then "\\b"
  else if c = '\x0c' then "\\f"
  else if c = '\n' then "\\n"
  else if c = '\r' then "\\r"
  else if c = '\t' then "\\t"
  else if c.toNat < 32 then "\\u" ++ hex4 c.toNat
  else String.singleton c

/-- JSON.stringify escaping of the characters of a string literal. -/
def jsonEscape (s : String) : String :=
  String.join (s.data.map jsonEscapeChar)

/-- The request built by both handlers:
`fetch("http://localhost:5000/search", { method: "POST", headers:
{"Content-Type": "application/json"}, body: JSON.stringify({ brand_drug:
brandDrug }) })`. -/
def searchRequest (brandDrug : String) : Request :=
  { url := "http://localhost:5000/search"
    method := "POST"
    contentType := "application/json"
    body := "\x7b\"brand_drug\":\"" ++ jsonEscape brandDrug ++ "\"\x7d" }

/-- The result of `response.json()`: either a parse failure (rejects,
caught by the catch block) or a parsed payload. -/
inductive JsonBody where
  | malformed
  | parsed (data : Payload)
deriving DecidableEq, Repr

/-- The outcome of the `fetch` call: the promise rejects (network failure),
or a response arrives with an ok flag and a body. -/
inductive FetchOutcome where
  | reject
  | response (ok : Bool) (body : JsonBody)
deriving DecidableEq, Repr

/-- The result div content: set as markup (`innerHTML`) or as plain text
(`innerText`). -/
inductive Rendered where
  | markup (s : String)
  | text (s : String)
deriving DecidableEq, Repr

/-- Observable effects of one activation of the click handler. -/
structure Outcome where
  alerted : Bool
  requests : List Request
  resultDiv : Rendered
  consoleErrors : Nat
  payloadRead : Bool
deriving DecidableEq, Repr

/-- The Shape-A markup of src/app.ts lines 27-32, with the template
literal's exact text around the interpolated fields. -/
def shapeAMarkup (data : Payload) : String :=
  "\n             <h2>Generic Info for " ++ jsStr data.brand_drug ++
  "</h2>\n             <p>" ++ jsStr data.generic_info ++
  "</p>\n             <h3>Raw Info</h3>\n             <p>" ++ jsStr data.raw_info ++
  "</p>\n         "

/-- One retailer box of src/unnamed/part_000 line 47. -/
def retailerBox (info : String) : String :=
  "<div class=\"retailer-box box\"><pre>" ++ info ++ "</pre></div>"

/-- `data.retailer_info.map(info => retailerBox(info)).join("")`. -/
def retailerRow (rs : List String) : String :=
  String.join (rs.map retailerBox)

/-- The Shape-B markup of src/unnamed/part_000 lines 32-51, given the
retailer list `rs` on which `.map` succeeded. -/
def shapeBMarkup (data : Payload) (rs : List String) : String :=
  "\n            <div class=\"top-row\">\n                <div id=\"brand-box\" class=\"box\">\n                    <h2>Brand Info</h2>\n                    <pre>" ++
  jsStr data.brand_info ++
  "</pre>\n                </div>\n                <div id=\"generic-box\" class=\"box\">\n                    <h2>Generic Summary</h2>\n                    <pre>" ++
  jsStr data.generic_summary ++
  "</pre>\n                </div>\n            </div>\n            <div id=\"retailer-row\" class=\"row\">\n                " ++
  retailerRow rs ++
  "\n            </div>\n        "

/-- Building the Shape-B markup: calling `.map` on an undefined
`retailer_info` throws a TypeError, caught by the catch block. -/
def shapeBRender (data : Payload) : Except Unit String :=
  match data.retailer_info with
  | none => .error ()
  | some rs => .ok (shapeBMarkup data rs)

/-- The click handler of src/app.ts (Shape-A renderer), as a function from
the input value, the fetch outcome and the prior result-div content to the
activation's observable effects. -/
def handlerA (inputValue : String) (f : FetchOutcome) (div0 : Rendered) : Outcome :=
  let brandDrug := jsTrim inputValue
  if brandDrug = "" then
    { alerted := true, requests := [], resultDiv := div0,
      consoleErrors := 0, payloadRead := false }
  else
    match f with
    | .reject =>
      { alerted := false, requests := [searchRequest brandDrug],
        resultDiv := .text "An error occurred.", consoleErrors := 1,
        payloadRead := false }
    | .response ok body =>
      if ok then
        match body with
        | .malformed =>
          { alerted := false, requests := [searchRequest brandDrug],
            resultDiv := .text "An error occurred.", consoleErrors := 1,
            payloadRead := true }
        | .parsed data =>
          { alerted := false, requests := [searchRequest brandDrug],
            resultDiv := .markup (shapeAMarkup data), consoleErrors := 0,
            payloadRead := true }
      else
        { alerted := false, requests := [searchRequest brandDrug],
          resultDiv := .text "Error fetching drug information.",
          consoleErrors := 0, payloadRead := false }

/-- The click handler of src/unnamed/part_000 (Shape-B renderer). -/
def handlerB (inputValue : String) (f : FetchOutcome) (div0 : Rendered) : Outcome :=
  let brandDrug := jsTrim inputValue
  if brandDrug = "" then
    { alerted := true, requests := [], resultDiv := div0,
      consoleErrors := 0, payloadRead := false }
  else
    match f with
    | .reject =>
      { alerted := false, requests := [searchRequest brandDrug],
        resultDiv := .text "An error occurred.", consoleErrors := 1,
        payloadRead := false }
    | .response ok body =>
      if ok then
        match body with
        | .malformed =>
          { alerted := false, requests := [searchRequest brandDrug],
            resultDiv := .text "An error occurred.", consoleErrors := 1,
            payloadRead := true }
        | .parsed data =>
          match shapeBRender data with
          | .error _ =>
            { alerted := false, requests := [searchRequest brandDrug],
              resultDiv := .text "An error occurred.", consoleErrors := 1,
              payloadRead := true }
          | .ok m =>
            { alerted := false, requests := [searchRequest brandDrug],
              resultDiv := .markup m, consoleErrors := 0,
              payloadRead := true }
      else
        { alerted := false, requests := [searchRequest brandDrug],
          resultDiv := .text "Error fetching drug information.",
          consoleErrors := 0, payloadRead := false }

/-- `pat` occurs verbatim (unescaped) as a substring of `s`. -/
def containsSub (s pat : String) : Prop := ∃ a b, s = a ++ pat ++ b

theorem containsSub_here (a p b : String) : containsSub (a ++ p ++ b) p :=
  ⟨a, b, rfl⟩

theorem containsSub_left {s p : String} (t : String) (h : containsSub s p) :
    containsSub (t ++ s) p := by
  obtain ⟨a, b, rfl⟩ := h
  exact ⟨t ++ a, b, by simp [String.append_assoc]⟩

theorem containsSub_right {s p : String} (t : String) (h : containsSub s p) :
    containsSub (s ++ t) p := by
  obtain ⟨a, b, rfl⟩ := h
  exact ⟨a, b ++ t, by simp [String.append_assoc]⟩

/-- C1: for every activation whose input value, after trimming, is
non-empty, both handlers issue exactly one request, and it is an HTTP POST
to http://localhost:5000/search with header Content-Type: application/json
and JSON body binding "brand_drug" to the trimmed query. -/
theorem claim1_single_post (v : String) (f : FetchOutcome) (d : Rendered)
    (h : jsTrim v ≠ "") :
    (handlerA v f d).requests = [searchRequest (jsTrim v)] ∧
    (handlerB v f d).requests = [searchRequest (jsTrim v)] ∧
    (searchRequest (jsTrim v)).url = "http://localhost:5000/search" ∧
    (searchRequest (jsTrim v)).method = "POST" ∧
    (searchRequest (jsTrim v)).contentType = "application/json" ∧
    (searchRequest (jsTrim v)).body =
      "\x7b\"brand_drug\":\"" ++ jsonEscape (jsTrim v) ++ "\"\x7d" := by
  refine ⟨?_, ?_, rfl, rfl, rfl, rfl⟩ <;>
    cases f with
    | reject => simp [handlerA, handlerB, h]
    | response ok body =>
      cases ok <;> cases body <;>
        simp [handlerA, handlerB, h, shapeBRender] <;>
        cases hr : Payload.retailer_info _ <;> simp

theorem claim1_single_post_witness :
    (handlerA "aspirin" .reject (.text "")).requests =
      [searchRequest (jsTrim "aspirin")] ∧
    (handlerB "aspirin" .reject (.text "")).requests =
      [searchRequest (jsTrim "aspirin")] ∧
    (searchRequest (jsTrim "aspirin")).url = "http://localhost:5000/search" ∧
    (searchRequest (jsTrim "aspirin")).method = "POST" ∧
    (searchRequest (jsTrim "aspirin")).contentType = "application/json" ∧
    (searchRequest (jsTrim "aspirin")).body =
      "\x7b\"brand_drug\":\"" ++ jsonEscape (jsTrim "aspirin") ++ "\"\x7d" :=
  claim1_single_post "aspirin" .reject (.text "") (by decide)

/-- C2: for every activation whose input value trims to empty, both
handlers emit the blocking alert and issue no request. -/
theorem claim2_empty_guard (v : String) (f : FetchOutcome) (d : Rendered)
    (h : jsTrim v = "") :
    (handlerA v f d).alerted = true ∧ (handlerA v f d).requests = [] ∧
    (handlerB v f d).alerted = true ∧ (handlerB v f d).requests = [] := by
  simp [handlerA, handlerB, h]

theorem claim2_empty_guard_witness :
    (handlerA "   " .reject (.text "x")).alerted = true ∧
    (handlerA "   " .reject (.text "x")).requests = [] ∧
    (handlerB "   " .reject (.text "x")).alerted = true ∧
    (handlerB "   " .reject (.text "x")).requests = [] :=
  claim2_empty_guard "   " .reject (.text "x") (by decide)

/-- C9: for every activation whose input value trims to empty, the result
div is left exactly as it was before the activation. -/
theorem claim9_empty_frame (v : String) (f : FetchOutcome) (d : Rendered)
    (h : jsTrim v = "") :
    (handlerA v f d).resultDiv = d ∧ (handlerB v f d).resultDiv = d := by
  simp [handlerA, handlerB, h]

theorem claim9_empty_frame_witness :
    (handlerA " " .reject (.markup "old")).resultDiv = .markup "old" ∧
    (handlerB " " .reject (.markup "old")).resultDiv = .markup "old" :=
  claim9_empty_frame " " .reject (.markup "old") (by decide)

/-- C3: on an ok response with a parsed payload, handlerA overwrites the
result div markup with the Shape-A template and handlerB (when the Shape-B
retailer list is present) with the Shape-B template, each interpolating the
consulted field values verbatim, without escaping. -/
theorem claim3_ok_render (v : String) (d : Rendered) (data : Payload)
    (rs : List String) (h : jsTrim v ≠ "")
    (hrs : data.retailer_info = some rs) :
    (handlerA v (.response true (.parsed data)) d).resultDiv =
      .markup (shapeAMarkup data) ∧
    containsSub (shapeAMarkup data) (jsStr data.brand_drug) ∧
    containsSub (shapeAMarkup data) (jsStr data.generic_info) ∧
    containsSub (shapeAMarkup data) (jsStr data.raw_info) ∧
    (handlerB v (.response true (.parsed data)) d).resultDiv =
      .markup (shapeBMarkup data rs) ∧
    containsSub (shapeBMarkup data rs) (jsStr data.brand_info) ∧
    containsSub (shapeBMarkup data rs) (jsStr data.generic_summary) := by
  refine ⟨?_, ?_, ?_, ?_, ?_, ?_, ?_⟩
  · simp [handlerA, h]
  · simp only [shapeAMarkup]
    exact containsSub_right _ (containsSub_right _ (containsSub_right _
      (containsSub_right _ (containsSub_here _ _ _))))
  · simp only [shapeAMarkup]
    exact containsSub_right _ (containsSub_right _ (containsSub_here _ _ _))
  · simp only [shapeAMarkup]
    exact containsSub_here _ _ _
  · simp [handlerB, h, shapeBRender, hrs]
  · simp only [shapeBMarkup]
    exact containsSub_right _ (containsSub_right _ (containsSub_right _
      (containsSub_right _ (containsSub_here _ _ _))))
  · simp only [shapeBMarkup]
    exact containsSub_right _ (containsSub_right _ (containsSub_here _ _ _))

theorem claim3_ok_render_witness :
    (handlerA "advil" (.response true (.parsed
        ⟨some "X", some "Y", some "Z", some "A", some "B", some ["C"]⟩))
      (.text "")).resultDiv =
      .markup (shapeAMarkup
        ⟨some "X", some "Y", some "Z", some "A", some "B", some ["C"]⟩) ∧
    containsSub (shapeAMarkup
        ⟨some "X", some "Y", some "Z", some "A", some "B", some ["C"]⟩)
      (jsStr (some "X")) ∧
    containsSub (shapeAMarkup
        ⟨some "X", some "Y", some "Z", some "A", some "B", some ["C"]⟩)
      (jsStr (some "Y")) ∧
    containsSub (shapeAMarkup
        ⟨some "X", some "Y", some "Z", some "A", some "B", some ["C"]⟩)
      (jsStr (some "Z")) ∧
    (handlerB "advil" (.response true (.parsed
        ⟨some "X", some "Y", some "Z", some "A", some "B", some ["C"]⟩))
      (.text "")).resultDiv =
      .markup (shapeBMarkup
        ⟨some "X", some "Y", some "Z", some "A", some "B", some ["C"]⟩ ["C"]) ∧
    containsSub (shapeBMarkup
        ⟨some "X", some "Y", some "Z", some "A", some "B", some ["C"]⟩ ["C"])
      (jsStr (some "A")) ∧
    containsSub (shapeBMarkup
        ⟨some "X", some "Y", some "Z", some "A", some "B", some ["C"]⟩ ["C"])
      (jsStr (some "B")) :=
  claim3_ok_render "advil" (.text "")
    ⟨some "X", some "Y", some "Z", some "A", some "B", some ["C"]⟩ ["C"]
    (by decide) rfl

/-- C4: on a non-ok response, both handlers set the result div text to
exactly "Error fetching drug information." and never read the payload: the
outcome is the same whatever the body holds. -/
theorem claim4_non_ok (v : String) (d : Rendered) (b b2 : JsonBody)
    (h : jsTrim v ≠ "") :
    (handlerA v (.response false b) d).resultDiv =
      .text "Error fetching drug information." ∧
    (handlerA v (.response false b) d).payloadRead = false ∧
    handlerA v (.response false b) d = handlerA v (.response false b2) d ∧
    (handlerB v (.response false b) d).resultDiv =
      .text "Error fetching drug information." ∧
    (handlerB v (.response false b) d).payloadRead = false ∧
    handlerB v (.response false b) d = handlerB v (.response false b2) d := by
  simp [handlerA, handlerB, h]

theorem claim4_non_ok_witness :
    (handlerA "advil" (.response false .malformed) (.text "")).resultDiv =
      .text "Error fetching drug information." ∧
    (handlerA "advil" (.response false .malformed) (.text "")).payloadRead =
      false ∧
    handlerA "advil" (.response false .malformed) (.text "") =
      handlerA "advil" (.response false (.parsed
        ⟨none, none, none, none, none, none⟩)) (.text "") ∧
    (handlerB "advil" (.response false .malformed) (.text "")).resultDiv =
      .text "Error fetching drug information." ∧
    (handlerB "advil" (.response false .malformed) (.text "")).payloadRead =
      false ∧
    handlerB "advil" (.response false .malformed) (.text "") =
      handlerB "advil" (.response false (.parsed
        ⟨none, none, none, none, none, none⟩)) (.text "") :=
  claim4_non_ok "advil" (.text "") .malformed
    (.parsed ⟨none, none, none, none, none, none⟩) (by decide)

/-- C5: on a rejected fetch, a malformed JSON body, or a throw while
rendering (Shape B with no retailer list), both handlers set the result div
text to exactly "An error occurred." and emit one console diagnostic. -/
theorem claim5_failure (v : String) (d : Rendered) (data : Payload)
    (h : jsTrim v ≠ "") (hr : data.retailer_info = none) :
    (handlerA v .reject d).resultDiv = .text "An error occurred." ∧
    (handlerA v .reject d).consoleErrors = 1 ∧
    (handlerA v (.response true .malformed) d).resultDiv =
      .text "An error occurred." ∧
    (handlerA v (.response true .malformed) d).consoleErrors = 1 ∧
    (handlerB v .reject d).resultDiv = .text "An error occurred." ∧
    (handlerB v .reject d).consoleErrors = 1 ∧
    (handlerB v (.response true .malformed) d).resultDiv =
      .text "An error occurred." ∧
    (handlerB v (.response true .malformed) d).consoleErrors = 1 ∧
    (handlerB v (.response true (.parsed data)) d).resultDiv =
      .text "An error occurred." ∧
    (handlerB v (.response true (.parsed data)) d).consoleErrors = 1 := by
  simp [handlerA, handlerB, h, shapeBRender, hr]

theorem claim5_failure_witness :
    (handlerA "advil" .reject (.text "")).resultDiv =
      .text "An error occurred." ∧
    (handlerA "advil" .reject (.text "")).consoleErrors = 1 ∧
    (handlerA "advil" (.response true .malformed) (.text "")).resultDiv =
      .text "An error occurred." ∧
    (handlerA "advil" (.response true .malformed) (.text "")).consoleErrors
      = 1 ∧
    (handlerB "advil" .reject (.text "")).resultDiv =
      .text "An error occurred." ∧
    (handlerB "advil" .reject (.text "")).consoleErrors = 1 ∧
    (handlerB "advil" (.response true .malformed) (.text "")).resultDiv =
      .text "An error occurred." ∧
    (handlerB "advil" (.response true .malformed) (.text "")).consoleErrors
      = 1 ∧
    (handlerB "advil" (.response true (.parsed
        ⟨none, none, none, none, none, none⟩)) (.text "")).resultDiv =
      .text "An error occurred." ∧
    (handlerB "advil" (.response true (.parsed
        ⟨none, none, none, none, none, none⟩)) (.text "")).consoleErrors
      = 1 :=
  claim5_failure "advil" (.text "") ⟨none, none, none, none, none, none⟩
    (by decide) rfl

/-- C8: two sequential activations of the same valid query against the same
fetch outcome render the same result-div content each time: the second run,
started from the first run's rendered content, reproduces it. -/
theorem claim8_idempotent (v : String) (f : FetchOutcome) (d : Rendered)
    (h : jsTrim v ≠ "") :
    (handlerA v f ((handlerA v f d).resultDiv)).resultDiv =
      (handlerA v f d).resultDiv ∧
    (handlerB v f ((handlerB v f d).resultDiv)).resultDiv =
      (handlerB v f d).resultDiv := by
  cases f with
  | reject => simp [handlerA, handlerB, h]
  | response ok body =>
    cases ok <;> cases body <;>
      simp [handlerA, handlerB, h, shapeBRender]

theorem claim8_idempotent_witness :
    (handlerA "advil" .reject
        ((handlerA "advil" .reject (.text "start")).resultDiv)).resultDiv =
      (handlerA "advil" .reject (.text "start")).resultDiv ∧
    (handlerB "advil" .reject
        ((handlerB "advil" .reject (.text "start")).resultDiv)).resultDiv =
      (handlerB "advil" .reject (.text "start")).resultDiv :=
  claim8_idempotent "advil" .reject (.text "start") (by decide)

/-- The Shape-B payload of the spec's concrete test:
`{"brand_info":"A","generic_summary":"B","retailer_info":["C","D"]}`. -/
def payloadC6 : Payload :=
  { brand_drug := none, generic_info := none, raw_info := none,
    brand_info := some "A", generic_summary := some "B",
    retailer_info := some ["C", "D"] }

/-- C6: on an ok response carrying payloadC6, handlerB renders the Shape-B
markup, which contains "A" and "B", and the retailer row is exactly the two
boxes for "C" and "D", in that order. -/
theorem claim6_shapeB_concrete :
    (handlerB "drugX" (.response true (.parsed payloadC6))
        (.text "")).resultDiv = .markup (shapeBMarkup payloadC6 ["C", "D"]) ∧
    containsSub (shapeBMarkup payloadC6 ["C", "D"]) "A" ∧
    containsSub (shapeBMarkup payloadC6 ["C", "D"]) "B" ∧
    retailerRow ["C", "D"] = retailerBox "C" ++ retailerBox "D" ∧
    containsSub (shapeBMarkup payloadC6 ["C", "D"])
      (retailerBox "C" ++ retailerBox "D") ∧
    containsSub (retailerBox "C") "C" ∧
    containsSub (retailerBox "D") "D" := by
  have h : jsTrim "drugX" ≠ "" := by decide
  have hrow : retailerRow ["C", "D"] = retailerBox "C" ++ retailerBox "D" := by
    simp [retailerRow, String.join]
  refine ⟨?_, ?_, ?_, hrow, ?_, ?_, ?_⟩
  · simp [handlerB, h, shapeBRender, payloadC6]
  · simp only [shapeBMarkup, payloadC6, jsStr]
    exact containsSub_right _ (containsSub_right _ (containsSub_right _
      (containsSub_right _ (containsSub_here _ _ _))))
  · simp only [shapeBMarkup, payloadC6, jsStr]
    exact containsSub_right _ (containsSub_right _ (containsSub_here _ _ _))
  · simp only [shapeBMarkup]
    rw [hrow]
    exact containsSub_here _ _ _
  · simp only [retailerBox]
    exact containsSub_here _ _ _
  · simp only [retailerBox]
    exact containsSub_here _ _ _

/-- The Shape-A payload of the spec's concrete test:
`{"brand_drug":"X","generic_info":"Y","raw_info":"Z"}`. -/
def payloadC7 : Payload :=
  { brand_drug := some "X", generic_info := some "Y", raw_info := some "Z",
    brand_info := none, generic_summary := none, retailer_info := none }

/-- C7: on an ok response carrying payloadC7, handlerA renders the Shape-A
markup, which contains "X", "Y" and "Z". -/
theorem claim7_shapeA_concrete :
    (handlerA "drugX" (.response true (.parsed payloadC7))
        (.text "")).resultDiv = .markup (shapeAMarkup payloadC7) ∧
    containsSub (shapeAMarkup payloadC7) "X" ∧
    containsSub (shapeAMarkup payloadC7) "Y" ∧
    containsSub (shapeAMarkup payloadC7) "Z" := by
  have h : jsTrim "drugX" ≠ "" := by decide
  refine ⟨?_, ?_, ?_, ?_⟩
  · simp [handlerA, h]
  · simp only [shapeAMarkup, payloadC7, jsStr]
    exact containsSub_right _ (containsSub_right _ (containsSub_right _
      (containsSub_right _ (containsSub_here _ _ _))))
  · simp only [shapeAMarkup, payloadC7, jsStr]
    exact containsSub_right _ (containsSub_right _ (containsSub_here _ _ _))
  · simp only [shapeAMarkup, payloadC7, jsStr]
    exact containsSub_here _ _ _

/-- C10: an ok payload with no retailer_info makes handlerB throw while
building the Shape-B markup, ending with text "An error occurred." and a
console diagnostic, never partial markup; a missing scalar field, by
contrast, renders without error, interpolated as the literal text
"undefined" (shown for Shape A's generic_info and Shape B's brand_info). -/
theorem claim10_missing_fields (v : String) (d : Rendered)
    (dataN dataS : Payload) (rs : List String) (h : jsTrim v ≠ "")
    (hN : dataN.retailer_info = none)
    (hSr : dataS.retailer_info = some rs)
    (hSg : dataS.generic_info = none)
    (hSb : dataS.brand_info = none) :
    (handlerB v (.response true (.parsed dataN)) d).resultDiv =
      .text "An error occurred." ∧
    (handlerB v (.response true (.parsed dataN)) d).consoleErrors = 1 ∧
    (handlerA v (.response true (.parsed dataS)) d).resultDiv =
      .markup (shapeAMarkup dataS) ∧
    (handlerA v (.response true (.parsed dataS)) d).consoleErrors = 0 ∧
    containsSub (shapeAMarkup dataS) "undefined" ∧
    (handlerB v (.response true (.parsed dataS)) d).resultDiv =
      .markup (shapeBMarkup dataS rs) ∧
    (handlerB v (.response true (.parsed dataS)) d).consoleErrors = 0 ∧
    containsSub (shapeBMarkup dataS rs) "undefined" := by
  refine ⟨?_, ?_, ?_, ?_, ?_, ?_, ?_, ?_⟩
  · simp [handlerB, h, shapeBRender, hN]
  · simp [handlerB, h, shapeBRender, hN]
  · simp [handlerA, h]
  · simp [handlerA, h]
  · simp only [shapeAMarkup, hSg, jsStr]
    exact containsSub_right _ (containsSub_right _ (containsSub_here _ _ _))
  · simp [handlerB, h, shapeBRender, hSr]
  · simp [handlerB, h, shapeBRender, hSr]
  · simp only [shapeBMarkup, hSb, jsStr]
    exact containsSub_right _ (containsSub_right _ (containsSub_right _
      (containsSub_right _ (containsSub_here _ _ _))))

theorem claim10_missing_fields_witness :
    (handlerB "advil" (.response true (.parsed
        ⟨none, none, none, none, none, none⟩)) (.text "")).resultDiv =
      .text "An error occurred." ∧
    (handlerB "advil" (.response true (.parsed
        ⟨none, none, none, none, none, none⟩)) (.text "")).consoleErrors
      = 1 ∧
    (handlerA "advil" (.response true (.parsed
        ⟨none, none, none, none, none, some ["R"]⟩)) (.text "")).resultDiv =
      .markup (shapeAMarkup ⟨none, none, none, none, none, some ["R"]⟩) ∧
    (handlerA "advil" (.response true (.parsed
        ⟨none, none, none, none, none, some ["R"]⟩))
      (.text "")).consoleErrors = 0 ∧
    containsSub (shapeAMarkup ⟨none, none, none, none, none, some ["R"]⟩)
      "undefined" ∧
    (handlerB "advil" (.response true (.parsed
        ⟨none, none, none, none, none, some ["R"]⟩)) (.text "")).resultDiv =
      .markup (shapeBMarkup ⟨none, none, none, none, none, some ["R"]⟩
        ["R"]) ∧
    (handlerB "advil" (.response true (.parsed
        ⟨none, none, none, none, none, some ["R"]⟩))
      (.text "")).consoleErrors = 0 ∧
    containsSub (shapeBMarkup ⟨none, none, none, none, none, some ["R"]⟩
        ["R"]) "undefined" :=
  claim10_missing_fields "advil" (.text "")
    ⟨none, none, none, none, none, none⟩
    ⟨none, none, none, none, none, some ["R"]⟩ ["R"]
    (by decide) rfl rfl rfl rfl
